import Mathlib

/-!
Verification of the NES 6502 CPU emulator (files `src/bus.rs`, `src/cpu.rs`,
`src/opcodes.rs`, `src/rom.rs`) against its specification.

Shallow embedding conventions:
* `u8`/`u16` values are `Nat`s kept below `2^8`/`2^16` by the operations
  themselves; Rust wrapping arithmetic becomes explicit `% 256` / `% 65536`.
* A Rust `panic!` (and an out-of-bounds `Vec` index) is modelled by `Option`:
  `none` is the aborted computation.
* The `bitflags!` status register is modelled as a structure of eight `Bool`s
  together with `CPUFlags.fromBits` / `CPUFlags.bits` translating from and to
  the raw byte, mirroring the crate's `from_bits_truncate` / `.bits` (all
  eight bits are named flags, so `from_bits_truncate` keeps the low byte).
* RAM (`[u8; 2048]`) is a total function `Nat → Nat`; the cartridge program
  `Vec<u8>` is a `List Nat` indexed with `List.get?`.
-/

namespace NES

/-- Addressing modes, from `src/opcodes.rs` (`enum AddressingMode`). -/
inductive AddressingMode where
  | Immediate
  | ZeroPage
  | ZeroPage_X
  | ZeroPage_Y
  | Absolute
  | Absolute_X
  | Absolute_Y
  | Indirect
  | Indirect_X
  | Indirect_Y
  | NoneAddressing
deriving DecidableEq

/-- A parsed cartridge, from `src/rom.rs` (`struct Rom`); only the program
bytes are relevant to the CPU and Bus. -/
structure Rom where
  prg : List Nat

/-- The memory bus, from `src/bus.rs` (`struct Bus`): 2KB of RAM plus the
cartridge.  `ram` is total; only indices below 2048 are ever used because
every access masks the address with `0x7FF` first, exactly as the source
does. -/
structure Bus where
  ram : Nat → Nat
  rom : Rom

/-- `Bus::read_prg_rom`: subtract `0x8000`, mirror 16KB images, index the
program bytes.  The Rust `Vec` index panics when out of bounds, hence
`List.get?`. -/
def Bus.readPrgRom (b : Bus) (addr : Nat) : Option Nat :=
  let a := addr - 0x8000
  let a := if b.rom.prg.length = 0x4000 ∧ 0x4000 ≤ a then a % 0x4000 else a
  b.rom.prg.get? a

/-- `Bus::mem_read`: RAM range is mirrored through `addr & 0x7FF`; the PPU
register range is stubbed to 0; the cartridge range delegates to
`read_prg_rom`; anything else reads as 0. -/
def Bus.memRead (b : Bus) (addr : Nat) : Option Nat :=
  if addr ≤ 0x1FFF then some (b.ram (addr &&& 0x7FF))
  else if addr ≤ 0x3FFF then some 0
  else if 0x8000 ≤ addr ∧ addr ≤ 0xFFFF then b.readPrgRom addr
  else some 0

/-- `Bus::mem_write`: RAM range is a mirrored write; the PPU range is a
no-op; the cartridge range panics (`none`); anything else is ignored. -/
def Bus.memWrite (b : Bus) (addr data : Nat) : Option Bus :=
  if addr ≤ 0x1FFF then
    some { b with ram := fun i => if i = (addr &&& 0x7FF) then data else b.ram i }
  else if addr ≤ 0x3FFF then some b
  else if 0x8000 ≤ addr ∧ addr ≤ 0xFFFF then none
  else some b

/-- Modelled from the spec: the Memory Interface's `read_word` default
(`src/mem.rs` is not among the sources; spec section 4.1): low byte at
`address`, high byte at `address + 1`, combined little-endian, the
increment wrapping as a `u16`. -/
def Bus.memReadU16 (b : Bus) (addr : Nat) : Option Nat := do
  let lo ← b.memRead addr
  let hi ← b.memRead ((addr + 1) % 0x10000)
  pure ((hi <<< 8) ||| lo)

/-- Modelled from the spec: the Memory Interface's `write_word` default
(`src/mem.rs` is not among the sources; spec section 4.1): writes the low
byte at `address` then the high byte at `address + 1`. -/
def Bus.memWriteU16 (b : Bus) (addr data : Nat) : Option Bus := do
  let b ← b.memWrite addr (data &&& 0xFF)
  b.memWrite ((addr + 1) % 0x10000) ((data >>> 8) % 256)

/-- The status register, from the `bitflags!` block in `src/cpu.rs`:
CARRY = bit 0, ZERO = bit 1, INT = bit 2, DEC = bit 3, BRK = bit 4,
BRK2 = bit 5, OVER = bit 6, NEG = bit 7. -/
structure CPUFlags where
  carry : Bool
  zero : Bool
  int : Bool
  dec : Bool
  brk : Bool
  brk2 : Bool
  over : Bool
  neg : Bool
deriving DecidableEq

/-- `CPUFlags::from_bits_truncate` (all eight bits are defined flags, so
truncation keeps exactly the low byte), and the raw-byte assignment
`self.status.bits = v`. -/
def CPUFlags.fromBits (v : Nat) : CPUFlags :=
  ⟨v.testBit 0, v.testBit 1, v.testBit 2, v.testBit 3,
   v.testBit 4, v.testBit 5, v.testBit 6, v.testBit 7⟩

/-- The raw byte `self.status.bits` of the flag set. -/
def CPUFlags.bits (f : CPUFlags) : Nat :=
  (if f.carry then 0x01 else 0) + (if f.zero then 0x02 else 0) +
  (if f.int then 0x04 else 0) + (if f.dec then 0x08 else 0) +
  (if f.brk then 0x10 else 0) + (if f.brk2 then 0x20 else 0) +
  (if f.over then 0x40 else 0) + (if f.neg then 0x80 else 0)

/-- `const PRG_REF: u16 = 0xFFFC` in `src/cpu.rs`. -/
def PRG_REF : Nat := 0xFFFC

/-- `const PRG_START: u16 = 0x8000` in `src/cpu.rs`. -/
def PRG_START : Nat := 0x8000

/-- `const STACK_START: u8 = 0x00FD` in `src/cpu.rs`. -/
def STACK_START : Nat := 0xFD

/-- `const STACK_END: u16 = 0x0100` in `src/cpu.rs`. -/
def STACK_END : Nat := 0x0100

/-- The CPU state, from `src/cpu.rs` (`struct CPU`). -/
structure CPU where
  stack_ptr : Nat
  accumulator : Nat
  register_x : Nat
  register_y : Nat
  status : CPUFlags
  program_counter : Nat
  bus : Bus

/-- `CPU::new`. -/
def CPU.new (bus : Bus) : CPU :=
  { stack_ptr := STACK_START
    accumulator := 0
    register_x := 0
    register_y := 0
    status := CPUFlags.fromBits 0b00100100
    program_counter := PRG_START
    bus := bus }

/-- `impl Mem for CPU`: all memory accesses delegate to the bus. -/
def CPU.memRead (c : CPU) (addr : Nat) : Option Nat :=
  c.bus.memRead addr

/-- `impl Mem for CPU`, write side. -/
def CPU.memWrite (c : CPU) (addr data : Nat) : Option CPU :=
  (c.bus.memWrite addr data).map fun b => { c with bus := b }

/-- `impl Mem for CPU`, word read. -/
def CPU.memReadU16 (c : CPU) (addr : Nat) : Option Nat :=
  c.bus.memReadU16 addr

/-- `impl Mem for CPU`, word write. -/
def CPU.memWriteU16 (c : CPU) (addr data : Nat) : Option CPU :=
  (c.bus.memWriteU16 addr data).map fun b => { c with bus := b }

/-- `u8::wrapping_add` under the `< 256` value invariant. -/
def wadd8 (a b : Nat) : Nat := (a + b) % 256

/-- `u8::wrapping_sub` under the `< 256` value invariant. -/
def wsub8 (a b : Nat) : Nat := (a + 256 - b % 256) % 256

/-- `i8::wrapping_neg` on the byte's bit pattern. -/
def wneg8 (a : Nat) : Nat := (256 - a % 256) % 256

/-- `CPU::get_non_immediate_addr`: effective-address computation for every
addressing mode except `Immediate`; the catch-all arm returns 0. -/
def CPU.getNonImmediateAddr (c : CPU) (mode : AddressingMode) (currAddr : Nat) : Option Nat :=
  match mode with
  | .ZeroPage => c.memRead currAddr
  | .ZeroPage_X => do
      let base ← c.memRead currAddr
      pure (wadd8 base c.register_x)
  | .ZeroPage_Y => do
      let base ← c.memRead currAddr
      pure (wadd8 base c.register_y)
  | .Absolute => c.memReadU16 currAddr
  | .Absolute_X => do
      let base ← c.memReadU16 currAddr
      pure ((base + c.register_x) % 0x10000)
  | .Absolute_Y => do
      let base ← c.memReadU16 currAddr
      pure ((base + c.register_y) % 0x10000)
  | .Indirect => do
      let base ← c.memReadU16 currAddr
      c.memReadU16 base
  | .Indirect_X => do
      let base ← c.memRead currAddr
      let ptr := wadd8 base c.register_x
      let lo ← c.memRead ptr
      let hi ← c.memRead (wadd8 ptr 1)
      pure ((hi <<< 8) ||| lo)
  | .Indirect_Y => do
      let base ← c.memRead currAddr
      let lo ← c.memRead base
      let hi ← c.memRead (wadd8 base 1)
      let indirectBase := (hi <<< 8) ||| lo
      pure ((indirectBase + c.register_y) % 0x10000)
  | _ => some 0

/-- `CPU::get_operand_address`. -/
def CPU.getOperandAddress (c : CPU) (mode : AddressingMode) : Option Nat :=
  match mode with
  | .Immediate => some c.program_counter
  | _ => c.getNonImmediateAddr mode c.program_counter

/-- `CPU::set_stack_ptr`. -/
def CPU.setStackPtr (c : CPU) (v : Nat) : CPU :=
  { c with stack_ptr := v }

/-- `CPU::push_stack`: write at `STACK_END | stack_ptr`, then decrement the
stack pointer with wraparound. -/
def CPU.pushStack (c : CPU) (val : Nat) : Option CPU := do
  let c ← c.memWrite (STACK_END ||| c.stack_ptr) val
  pure (c.setStackPtr (wsub8 c.stack_ptr 1))

/-- `CPU::push_stack_u16`: high byte first, then low byte. -/
def CPU.pushStackU16 (c : CPU) (val : Nat) : Option CPU := do
  let c ← c.pushStack ((val >>> 8) % 256)
  c.pushStack (val % 256)

/-- `CPU::pull_stack`: increment the stack pointer with wraparound, then
read at `STACK_END | stack_ptr`. -/
def CPU.pullStack (c : CPU) : Option (Nat × CPU) := do
  let c := c.setStackPtr (wadd8 c.stack_ptr 1)
  let v ← c.memRead (STACK_END ||| c.stack_ptr)
  pure (v, c)

/-- `CPU::pull_stack_u16`: low byte first, then high byte. -/
def CPU.pullStackU16 (c : CPU) : Option (Nat × CPU) := do
  let (lo, c) ← c.pullStack
  let (hi, c) ← c.pullStack
  pure (lo ||| (hi <<< 8), c)

/-- `CPU::set_zero_and_neg_flags`. -/
def CPU.setZeroAndNegFlags (c : CPU) (val : Nat) : CPU :=
  { c with status := { c.status with zero := val == 0, neg := val &&& 0b10000000 != 0 } }

/-- `CPU::set_acc`. -/
def CPU.setAcc (c : CPU) (v : Nat) : CPU :=
  ({ c with accumulator := v }).setZeroAndNegFlags v

/-- `CPU::set_reg_x`. -/
def CPU.setRegX (c : CPU) (v : Nat) : CPU :=
  ({ c with register_x := v }).setZeroAndNegFlags v

/-- `CPU::set_reg_y`. -/
def CPU.setRegY (c : CPU) (v : Nat) : CPU :=
  ({ c with register_y := v }).setZeroAndNegFlags v

/-- `CPU::write_and_set`. -/
def CPU.writeAndSet (c : CPU) (addr data : Nat) : Option CPU := do
  let c ← c.memWrite addr data
  pure (c.setZeroAndNegFlags data)

/-- `CPU::add_to_acc`: 9-bit sum of accumulator, operand and carry-in;
CARRY from the sum exceeding `0xFF`; OVERFLOW from
`(operand ^ result) & (acc ^ result) & 0x80`; result stored through
`set_acc`.  (The Rust sum lives in a `u16`, which cannot overflow for
byte-sized inputs, so it is a plain `Nat` sum here.) -/
def CPU.addToAcc (c : CPU) (operand : Nat) : CPU :=
  let sum := c.accumulator + operand + (if c.status.carry then 1 else 0)
  let c := { c with status := { c.status with carry := decide (sum > 0xFF) } }
  let result := sum % 256
  let c := { c with status := { c.status with
    over := (operand ^^^ result) &&& (c.accumulator ^^^ result) &&& 0b10000000 != 0 } }
  c.setAcc result

/-- `CPU::cmp`, body after the operand address is resolved: compare
`register_val` with the byte at `addr`. -/
def CPU.cmpAt (c : CPU) (addr registerVal : Nat) : Option CPU := do
  let val ← c.memRead addr
  let c := { c with status := { c.status with carry := decide (val ≤ registerVal) } }
  pure (c.setZeroAndNegFlags (wsub8 registerVal val))

/-- `CPU::cmp`. -/
def CPU.cmp (c : CPU) (mode : AddressingMode) (registerVal : Nat) : Option CPU := do
  let addr ← c.getOperandAddress mode
  c.cmpAt addr registerVal

/-- `CPU::dcp`, body after the operand address is resolved: decrement the
byte at `addr`, write it back, set CARRY when it ends `≤` the accumulator
(with no `else` branch clearing it), and set ZERO/NEGATIVE from
`accumulator - value`. -/
def CPU.dcpAt (c : CPU) (addr : Nat) : Option CPU := do
  let val ← c.memRead addr
  let val := wsub8 val 1
  let c ← c.memWrite addr val
  let c := if val ≤ c.accumulator then
      { c with status := { c.status with carry := true } }
    else c
  pure (c.setZeroAndNegFlags (wsub8 c.accumulator val))

/-- `CPU::dcp`. -/
def CPU.dcp (c : CPU) (mode : AddressingMode) : Option CPU := do
  let addr ← c.getOperandAddress mode
  c.dcpAt addr

/-- `CPU::dec`, body after the operand address is resolved. -/
def CPU.decAt (c : CPU) (addr : Nat) : Option CPU := do
  let val ← c.memRead addr
  c.writeAndSet addr (wsub8 val 1)

/-- `CPU::dec`. -/
def CPU.dec (c : CPU) (mode : AddressingMode) : Option CPU := do
  let addr ← c.getOperandAddress mode
  c.decAt addr

/-- The operand transformation in `CPU::sbc`:
`(operand as i8).wrapping_neg().wrapping_sub(1) as u8`. -/
def sbcOperand (operand : Nat) : Nat := wsub8 (wneg8 operand) 1

/-- `CPU::sbc`: reads the operand and feeds its one's complement into the
shared `add_to_acc` path. -/
def CPU.sbc (c : CPU) (mode : AddressingMode) : Option CPU := do
  let addr ← c.getOperandAddress mode
  let operand ← c.memRead addr
  pure (c.addToAcc (sbcOperand operand))

/-- `CPU::rti`: pull the status byte, force BRK cleared and BRK2 set, then
pull the program counter. -/
def CPU.rti (c : CPU) : Option CPU := do
  let (v, c) ← c.pullStack
  let c := { c with status := CPUFlags.fromBits v }
  let c := { c with status := { c.status with brk := false } }
  let c := { c with status := { c.status with brk2 := true } }
  let (pc, c) ← c.pullStackU16
  pure { c with program_counter := pc }

/-- `CPU::reset`: clear the registers, restore the initial status byte, and
load the program counter from the vector at `PRG_REF`; the stack pointer is
not assigned. -/
def CPU.reset (c : CPU) : Option CPU := do
  let pc ← c.memReadU16 PRG_REF
  pure { c with accumulator := 0, register_x := 0, register_y := 0,
                status := CPUFlags.fromBits 0b00100100, program_counter := pc }

/-- The loop in `CPU::load`: `for i in 0..len { mem_write(PRG_START + i, program[i]) }`. -/
def CPU.loadBytes (c : CPU) (addr : Nat) (program : List Nat) : Option CPU :=
  match program with
  | [] => some c
  | b :: rest => do
      let c ← c.memWrite addr b
      c.loadBytes (addr + 1) rest

/-- `CPU::load`: copy the program into the `PRG_START` window, then write
the reset vector. -/
def CPU.load (c : CPU) (program : List Nat) : Option CPU := do
  let c ← c.loadBytes PRG_START program
  c.memWriteU16 PRG_REF PRG_START

/-- The `0x6C` (indirect `JMP`) arm of `CPU::run_with_callback`, entered
with the program counter already advanced past the opcode byte: fetch the
pointer, and when its low byte is `0xFF` fetch the high byte of the target
from `pointer & 0xFF00` instead of `pointer + 1`. -/
def CPU.jmpIndirect (c : CPU) : Option CPU := do
  let memAddr ← c.memReadU16 c.program_counter
  let jmpAddr ←
    if memAddr &&& 0x00FF = 0x00FF then do
      let lo ← c.memRead memAddr
      let hi ← c.memRead (memAddr &&& 0xFF00)
      pure ((hi <<< 8) ||| lo)
    else c.memReadU16 memAddr
  pure { c with program_counter := jmpAddr }

/-- An opcode-table entry, from `src/opcodes.rs` (`struct OpCode`). -/
structure OpCode where
  code : Nat
  operation : String
  len : Nat
  cycles : Nat
  mode : AddressingMode

/-- Positional constructor used to transcribe the table. -/
def mkOpCode (code : Nat) (operation : String) (len cycles : Nat)
    (mode : AddressingMode) : OpCode :=
  ⟨code, operation, len, cycles, mode⟩

end NES

namespace NES

/-- The full opcode table from `src/opcodes.rs` (`OPCODES`), transcribed
entry by entry in source order: code, mnemonic, instruction length, base
cycles, addressing mode. -/
def OPCODES : List OpCode := [
  mkOpCode 0x0B "AAC" 2 2 .Immediate,
  mkOpCode 0x2B "AAC" 2 2 .Immediate,
  mkOpCode 0x87 "AAX" 2 3 .ZeroPage,
  mkOpCode 0x97 "AAX" 2 4 .ZeroPage_Y,
  mkOpCode 0x83 "AAX" 2 6 .Indirect_X,
  mkOpCode 0x8F "AAX" 3 4 .Absolute,
  mkOpCode 0x69 "ADC" 2 2 .Immediate,
  mkOpCode 0x65 "ADC" 2 3 .ZeroPage,
  mkOpCode 0x75 "ADC" 2 4 .ZeroPage_X,
  mkOpCode 0x6D "ADC" 3 4 .Absolute,
  mkOpCode 0x7D "ADC" 3 4 .Absolute_X,
  mkOpCode 0x79 "ADC" 3 4 .Absolute_Y,
  mkOpCode 0x61 "ADC" 2 6 .Indirect_X,
  mkOpCode 0x71 "ADC" 2 5 .Indirect_Y,
  mkOpCode 0x29 "AND" 2 2 .Immediate,
  mkOpCode 0x25 "AND" 2 3 .ZeroPage,
  mkOpCode 0x35 "AND" 2 4 .ZeroPage_X,
  mkOpCode 0x2D "AND" 3 4 .Absolute,
  mkOpCode 0x3D "AND" 3 4 .Absolute_X,
  mkOpCode 0x39 "AND" 3 4 .Absolute_Y,
  mkOpCode 0x21 "AND" 2 6 .Indirect_X,
  mkOpCode 0x31 "AND" 2 5 .Indirect_Y,
  mkOpCode 0x6B "ARR" 2 2 .Immediate,
  mkOpCode 0x0A "ASL" 1 2 .NoneAddressing,
  mkOpCode 0x06 "ASL" 2 5 .ZeroPage,
  mkOpCode 0x16 "ASL" 2 6 .ZeroPage_X,
  mkOpCode 0x0E "ASL" 3 6 .Absolute,
  mkOpCode 0x1E "ASL" 3 7 .Absolute_X,
  mkOpCode 0x4B "ASR" 2 2 .Immediate,
  mkOpCode 0xAB "ATX" 2 2 .Immediate,
  mkOpCode 0x9F "AXA" 3 5 .Absolute_Y,
  mkOpCode 0x93 "AXA" 2 6 .Indirect_Y,
  mkOpCode 0xCB "AXS" 2 2 .Immediate,
  mkOpCode 0x90 "BCC" 2 2 .NoneAddressing,
  mkOpCode 0xB0 "BCS" 2 2 .NoneAddressing,
  mkOpCode 0xF0 "BEQ" 2 2 .NoneAddressing,
  mkOpCode 0x24 "BIT" 2 3 .ZeroPage,
  mkOpCode 0x2C "BIT" 3 4 .Absolute,
  mkOpCode 0x30 "BMI" 2 2 .NoneAddressing,
  mkOpCode 0xD0 "BNE" 2 2 .NoneAddressing,
  mkOpCode 0x10 "BPL" 2 2 .NoneAddressing,
  mkOpCode 0x00 "BRK" 1 7 .NoneAddressing,
  mkOpCode 0x50 "BVC" 2 2 .NoneAddressing,
  mkOpCode 0x70 "BVS" 2 2 .NoneAddressing,
  mkOpCode 0x18 "CLC" 1 2 .NoneAddressing,
  mkOpCode 0xD8 "CLD" 1 2 .NoneAddressing,
  mkOpCode 0x58 "CLI" 1 2 .NoneAddressing,
  mkOpCode 0xB8 "CLV" 1 2 .NoneAddressing,
  mkOpCode 0xC9 "CMP" 2 2 .Immediate,
  mkOpCode 0xC5 "CMP" 2 3 .ZeroPage,
  mkOpCode 0xD5 "CMP" 2 4 .ZeroPage_X,
  mkOpCode 0xCD "CMP" 3 4 .Absolute,
  mkOpCode 0xDD "CMP" 3 4 .Absolute_X,
  mkOpCode 0xD9 "CMP" 3 4 .Absolute_Y,
  mkOpCode 0xC1 "CMP" 2 6 .Indirect_X,
  mkOpCode 0xD1 "CMP" 2 5 .Indirect_Y,
  mkOpCode 0xE0 "CPX" 2 2 .Immediate,
  mkOpCode 0xE4 "CPX" 2 3 .ZeroPage,
  mkOpCode 0xEC "CPX" 2 4 .Absolute,
  mkOpCode 0xC0 "CPY" 2 2 .Immediate,
  mkOpCode 0xC4 "CPY" 2 3 .ZeroPage,
  mkOpCode 0xCC "CPY" 2 4 .Absolute,
  mkOpCode 0xC7 "DCP" 2 5 .ZeroPage,
  mkOpCode 0xD7 "DCP" 2 6 .ZeroPage_X,
  mkOpCode 0xCF "DCP" 3 6 .Absolute,
  mkOpCode 0xDF "DCP" 3 7 .Absolute_X,
  mkOpCode 0xDB "DCP" 3 7 .Absolute_Y,
  mkOpCode 0xC3 "DCP" 2 8 .Indirect_X,
  mkOpCode 0xD3 "DCP" 2 8 .Indirect_Y,
  mkOpCode 0xC6 "DEC" 2 5 .ZeroPage,
  mkOpCode 0xD6 "DEC" 2 6 .ZeroPage_X,
  mkOpCode 0xCE "DEC" 3 6 .Absolute,
  mkOpCode 0xDE "DEC" 3 7 .Absolute_X,
  mkOpCode 0xCA "DEX" 1 2 .NoneAddressing,
  mkOpCode 0x88 "DEY" 1 2 .NoneAddressing,
  mkOpCode 0x04 "DOP" 2 3 .ZeroPage,
  mkOpCode 0x14 "DOP" 2 4 .ZeroPage_X,
  mkOpCode 0x34 "DOP" 2 4 .ZeroPage_X,
  mkOpCode 0x44 "DOP" 2 3 .ZeroPage,
  mkOpCode 0x54 "DOP" 2 4 .ZeroPage_X,
  mkOpCode 0x64 "DOP" 2 3 .ZeroPage,
  mkOpCode 0x74 "DOP" 2 4 .ZeroPage_X,
  mkOpCode 0x80 "DOP" 2 2 .Immediate,
  mkOpCode 0x82 "DOP" 2 2 .Immediate,
  mkOpCode 0x89 "DOP" 2 2 .Immediate,
  mkOpCode 0xC2 "DOP" 2 2 .Immediate,
  mkOpCode 0xD4 "DOP" 2 4 .ZeroPage_X,
  mkOpCode 0xE2 "DOP" 2 2 .Immediate,
  mkOpCode 0xF4 "DOP" 2 4 .ZeroPage_X,
  mkOpCode 0x49 "EOR" 2 2 .Immediate,
  mkOpCode 0x45 "EOR" 2 3 .ZeroPage,
  mkOpCode 0x55 "EOR" 2 4 .ZeroPage_X,
  mkOpCode 0x4D "EOR" 3 4 .Absolute,
  mkOpCode 0x5D "EOR" 3 4 .Absolute_X,
  mkOpCode 0x59 "EOR" 3 4 .Absolute_Y,
  mkOpCode 0x41 "EOR" 2 6 .Indirect_X,
  mkOpCode 0x51 "EOR" 2 5 .Indirect_Y,
  mkOpCode 0xE6 "INC" 2 5 .ZeroPage,
  mkOpCode 0xF6 "INC" 2 6 .ZeroPage_X,
  mkOpCode 0xEE "INC" 3 6 .Absolute,
  mkOpCode 0xFE "INC" 3 7 .Absolute_X,
  mkOpCode 0xE8 "INX" 1 2 .NoneAddressing,
  mkOpCode 0xC8 "INY" 1 2 .NoneAddressing,
  mkOpCode 0xE7 "ISC" 2 5 .ZeroPage,
  mkOpCode 0xF7 "ISC" 2 6 .ZeroPage_X,
  mkOpCode 0xEF "ISC" 3 6 .Absolute,
  mkOpCode 0xFF "ISC" 3 7 .Absolute_X,
  mkOpCode 0xFB "ISC" 3 7 .Absolute_Y,
  mkOpCode 0xE3 "ISC" 2 8 .Indirect_X,
  mkOpCode 0xF3 "ISC" 2 8 .Indirect_Y,
  mkOpCode 0x4C "JMP" 3 3 .Absolute,
  mkOpCode 0x6C "JMP" 3 5 .Indirect,
  mkOpCode 0x20 "JSR" 3 6 .Absolute,
  mkOpCode 0x02 "KIL" 1 0 .NoneAddressing,
  mkOpCode 0x12 "KIL" 1 0 .NoneAddressing,
  mkOpCode 0x22 "KIL" 1 0 .NoneAddressing,
  mkOpCode 0x32 "KIL" 1 0 .NoneAddressing,
  mkOpCode 0x42 "KIL" 1 0 .NoneAddressing,
  mkOpCode 0x52 "KIL" 1 0 .NoneAddressing,
  mkOpCode 0x62 "KIL" 1 0 .NoneAddressing,
  mkOpCode 0x72 "KIL" 1 0 .NoneAddressing,
  mkOpCode 0x92 "KIL" 1 0 .NoneAddressing,
  mkOpCode 0xB2 "KIL" 1 0 .NoneAddressing,
  mkOpCode 0xD2 "KIL" 1 0 .NoneAddressing,
  mkOpCode 0xF2 "KIL" 1 0 .NoneAddressing,
  mkOpCode 0xBB "LAR" 3 4 .Absolute_Y,
  mkOpCode 0xA7 "LAX" 2 3 .ZeroPage,
  mkOpCode 0xB7 "LAX" 2 4 .ZeroPage_Y,
  mkOpCode 0xAF "LAX" 3 4 .Absolute,
  mkOpCode 0xBF "LAX" 3 4 .Absolute_Y,
  mkOpCode 0xA3 "LAX" 2 6 .Indirect_X,
  mkOpCode 0xB3 "LAX" 2 5 .Indirect_Y,
  mkOpCode 0xA9 "LDA" 2 2 .Immediate,
  mkOpCode 0xA5 "LDA" 2 3 .ZeroPage,
  mkOpCode 0xB5 "LDA" 2 4 .ZeroPage_X,
  mkOpCode 0xAD "LDA" 3 4 .Absolute,
  mkOpCode 0xBD "LDA" 3 4 .Absolute_X,
  mkOpCode 0xB9 "LDA" 3 4 .Absolute_Y,
  mkOpCode 0xA1 "LDA" 2 6 .Indirect_X,
  mkOpCode 0xB1 "LDA" 2 5 .Indirect_Y,
  mkOpCode 0xA2 "LDX" 2 2 .Immediate,
  mkOpCode 0xA6 "LDX" 2 3 .ZeroPage,
  mkOpCode 0xB6 "LDX" 2 4 .ZeroPage_Y,
  mkOpCode 0xAE "LDX" 3 4 .Absolute,
  mkOpCode 0xBE "LDX" 3 4 .Absolute_Y,
  mkOpCode 0xA0 "LDY" 2 2 .Immediate,
  mkOpCode 0xA4 "LDY" 2 3 .ZeroPage,
  mkOpCode 0xB4 "LDY" 2 4 .ZeroPage_X,
  mkOpCode 0xAC "LDY" 3 4 .Absolute,
  mkOpCode 0xBC "LDY" 3 4 .Absolute_X,
  mkOpCode 0x4A "LSR" 1 2 .NoneAddressing,
  mkOpCode 0x46 "LSR" 2 5 .ZeroPage,
  mkOpCode 0x56 "LSR" 2 6 .ZeroPage_X,
  mkOpCode 0x4E "LSR" 3 6 .Absolute,
  mkOpCode 0x5E "LSR" 3 7 .Absolute_X,
  mkOpCode 0xEA "NOP" 1 2 .NoneAddressing,
  mkOpCode 0x1A "NOP" 1 2 .NoneAddressing,
  mkOpCode 0x3A "NOP" 1 2 .NoneAddressing,
  mkOpCode 0x5A "NOP" 1 2 .NoneAddressing,
  mkOpCode 0x7A "NOP" 1 2 .NoneAddressing,
  mkOpCode 0xDA "NOP" 1 2 .NoneAddressing,
  mkOpCode 0xFA "NOP" 1 2 .NoneAddressing,
  mkOpCode 0x09 "ORA" 2 2 .Immediate,
  mkOpCode 0x05 "ORA" 2 3 .ZeroPage,
  mkOpCode 0x15 "ORA" 2 4 .ZeroPage_X,
  mkOpCode 0x0D "ORA" 3 4 .Absolute,
  mkOpCode 0x1D "ORA" 3 4 .Absolute_X,
  mkOpCode 0x19 "ORA" 3 4 .Absolute_Y,
  mkOpCode 0x01 "ORA" 2 6 .Indirect_X,
  mkOpCode 0x11 "ORA" 2 5 .Indirect_Y,
  mkOpCode 0x48 "PHA" 1 3 .NoneAddressing,
  mkOpCode 0x08 "PHP" 1 3 .NoneAddressing,
  mkOpCode 0x68 "PLA" 1 4 .NoneAddressing,
  mkOpCode 0x28 "PLP" 1 4 .NoneAddressing,
  mkOpCode 0x27 "RLA" 2 5 .ZeroPage,
  mkOpCode 0x37 "RLA" 2 6 .ZeroPage_X,
  mkOpCode 0x2F "RLA" 3 6 .Absolute,
  mkOpCode 0x3F "RLA" 3 7 .Absolute_X,
  mkOpCode 0x3B "RLA" 3 7 .Absolute_Y,
  mkOpCode 0x23 "RLA" 2 8 .Indirect_X,
  mkOpCode 0x33 "RLA" 2 8 .Indirect_Y,
  mkOpCode 0x67 "RRA" 2 5 .ZeroPage,
  mkOpCode 0x77 "RRA" 2 6 .ZeroPage_X,
  mkOpCode 0x6F "RRA" 3 6 .Absolute,
  mkOpCode 0x7F "RRA" 3 7 .Absolute_X,
  mkOpCode 0x7B "RRA" 3 7 .Absolute_Y,
  mkOpCode 0x63 "RRA" 2 8 .Indirect_X,
  mkOpCode 0x73 "RRA" 2 8 .Indirect_Y,
  mkOpCode 0x2A "ROL" 1 2 .NoneAddressing,
  mkOpCode 0x26 "ROL" 2 5 .ZeroPage,
  mkOpCode 0x36 "ROL" 2 6 .ZeroPage_X,
  mkOpCode 0x2E "ROL" 3 6 .Absolute,
  mkOpCode 0x3E "ROL" 3 7 .Absolute_X,
  mkOpCode 0x6A "ROR" 1 2 .NoneAddressing,
  mkOpCode 0x66 "ROR" 2 5 .ZeroPage,
  mkOpCode 0x76 "ROR" 2 6 .ZeroPage_X,
  mkOpCode 0x6E "ROR" 3 6 .Absolute,
  mkOpCode 0x7E "ROR" 3 7 .Absolute_X,
  mkOpCode 0x40 "RTI" 1 6 .NoneAddressing,
  mkOpCode 0x60 "RTS" 1 6 .NoneAddressing,
  mkOpCode 0xEB "SBC" 2 2 .Immediate,
  mkOpCode 0xE9 "SBC" 2 2 .Immediate,
  mkOpCode 0xE5 "SBC" 2 3 .ZeroPage,
  mkOpCode 0xF5 "SBC" 2 4 .ZeroPage_X,
  mkOpCode 0xED "SBC" 3 4 .Absolute,
  mkOpCode 0xFD "SBC" 3 4 .Absolute_X,
  mkOpCode 0xF9 "SBC" 3 4 .Absolute_Y,
  mkOpCode 0xE1 "SBC" 2 6 .Indirect_X,
  mkOpCode 0xF1 "SBC" 2 5 .Indirect_Y,
  mkOpCode 0x38 "SEC" 1 2 .NoneAddressing,
  mkOpCode 0xF8 "SED" 1 2 .NoneAddressing,
  mkOpCode 0x78 "SEI" 1 2 .NoneAddressing,
  mkOpCode 0x07 "SLO" 2 5 .ZeroPage,
  mkOpCode 0x17 "SLO" 2 6 .ZeroPage_X,
  mkOpCode 0x0F "SLO" 3 6 .Absolute,
  mkOpCode 0x1F "SLO" 3 7 .Absolute_X,
  mkOpCode 0x1B "SLO" 3 7 .Absolute_Y,
  mkOpCode 0x03 "SLO" 2 8 .Indirect_X,
  mkOpCode 0x13 "SLO" 2 8 .Indirect_Y,
  mkOpCode 0x47 "SRE" 2 5 .ZeroPage,
  mkOpCode 0x57 "SRE" 2 6 .ZeroPage_X,
  mkOpCode 0x4F "SRE" 3 6 .Absolute,
  mkOpCode 0x5F "SRE" 3 7 .Absolute_X,
  mkOpCode 0x5B "SRE" 3 7 .Absolute_Y,
  mkOpCode 0x43 "SRE" 2 8 .Indirect_X,
  mkOpCode 0x53 "SRE" 2 8 .Indirect_Y,
  mkOpCode 0x85 "STA" 2 3 .ZeroPage,
  mkOpCode 0x95 "STA" 2 4 .ZeroPage_X,
  mkOpCode 0x8D "STA" 3 4 .Absolute,
  mkOpCode 0x9D "STA" 3 5 .Absolute_X,
  mkOpCode 0x99 "STA" 3 5 .Absolute_Y,
  mkOpCode 0x81 "STA" 2 6 .Indirect_X,
  mkOpCode 0x91 "STA" 2 6 .Indirect_Y,
  mkOpCode 0x86 "STX" 2 3 .ZeroPage,
  mkOpCode 0x96 "STX" 2 4 .ZeroPage_Y,
  mkOpCode 0x8E "STX" 3 4 .Absolute,
  mkOpCode 0x84 "STY" 2 3 .ZeroPage,
  mkOpCode 0x94 "STY" 2 4 .ZeroPage_X,
  mkOpCode 0x8C "STY" 3 4 .Absolute,
  mkOpCode 0x9E "SXA" 3 5 .Absolute_Y,
  mkOpCode 0x9C "SYA" 3 5 .Absolute_X,
  mkOpCode 0xAA "TAX" 1 2 .NoneAddressing,
  mkOpCode 0xA8 "TAY" 1 2 .NoneAddressing,
  mkOpCode 0x0C "TOP" 3 4 .Absolute,
  mkOpCode 0x1C "TOP" 3 4 .Absolute_X,
  mkOpCode 0x3C "TOP" 3 4 .Absolute_X,
  mkOpCode 0x5C "TOP" 3 4 .Absolute_X,
  mkOpCode 0x7C "TOP" 3 4 .Absolute_X,
  mkOpCode 0xDC "TOP" 3 4 .Absolute_X,
  mkOpCode 0xFC "TOP" 3 4 .Absolute_X,
  mkOpCode 0xBA "TSX" 1 2 .NoneAddressing,
  mkOpCode 0x8A "TXA" 1 2 .NoneAddressing,
  mkOpCode 0x9A "TXS" 1 2 .NoneAddressing,
  mkOpCode 0x98 "TYA" 1 2 .NoneAddressing,
  mkOpCode 0x8B "XAA" 2 2 .Immediate,
  mkOpCode 0x9B "XAS" 3 5 .Absolute_Y
]

/-- `OPCODES_MAP` lookup: the `HashMap` keyed by `code` built from
`OPCODES`.  Since every `code` occurs exactly once in `OPCODES`, lookup by
first match coincides with the map's semantics. -/
def OPCODES_MAP (code : Nat) : Option OpCode :=
  OPCODES.find? (fun op => op.code == code)

end NES

namespace NES

/-! ### Arithmetic helper lemmas -/

/-- Recombining a high byte shifted left by 8 with a low byte below 256 is
plain positional arithmetic. -/
theorem lor_hi_lo (hi lo : Nat) (h : lo < 256) : (hi <<< 8) ||| lo = hi * 256 + lo := by
  apply Nat.eq_of_testBit_eq
  intro j
  rw [Nat.testBit_lor, Nat.testBit_shiftLeft]
  have h256 : hi * 256 + lo = 2 ^ 8 * hi + lo := by ring
  rw [h256, Nat.testBit_mul_pow_two_add hi (by omega : lo < 2 ^ 8) j]
  by_cases hj : j < 8
  · have hge : ¬ (j ≥ 8) := by omega
    simp [hj, hge]
  · have h8 : 8 ≤ j := Nat.not_lt.mp hj
    have hpow : (256 : Nat) ≤ 2 ^ j := by
      calc (256 : Nat) = 2 ^ 8 := by norm_num
      _ ≤ 2 ^ j := Nat.pow_le_pow_right (by norm_num) h8
    have hlo : lo.testBit j = false := Nat.testBit_lt_two_pow (lt_of_lt_of_le h hpow)
    simp [hj, h8, hlo]

/-- The RAM mirror mask is reduction modulo `0x800`. -/
theorem land_mask2047 (a : Nat) : a &&& 0x7FF = a % 0x800 := by
  have h := Nat.and_pow_two_sub_one_eq_mod a 11
  norm_num at h
  omega

/-- A stack-page address: `STACK_END | sp` is `0x100 + sp` for byte-sized
stack pointers. -/
theorem stack_end_lor (sp : Nat) (h : sp < 256) : STACK_END ||| sp = 256 + sp := by
  have h0 : STACK_END = 0x100 := rfl
  rw [h0]
  simpa using lor_hi_lo 1 sp h

/-- Indexing a replicated list below its length. -/
theorem get?_replicate_lt (n i v : Nat) (h : i < n) :
    (List.replicate n v).get? i = some v := by
  simp [List.get?_eq_get, h]

/-! ### Claim C8 -/

/-- Claim C8: for every address in `0x8000`–`0xFFFF` and every data byte,
`Bus::mem_write` panics (modelled as `none`) rather than recovering or
silently ignoring the write; no successor bus state is produced, so RAM
and the cartridge ROM are untouched. -/
theorem memWrite_rom_range_panics (b : Bus) (addr data : Nat)
    (h1 : 0x8000 ≤ addr) (h2 : addr ≤ 0xFFFF) :
    b.memWrite addr data = none := by
  unfold Bus.memWrite
  rw [if_neg (by omega), if_neg (by omega), if_pos ⟨h1, h2⟩]

theorem memWrite_rom_range_panics_witness :
    (0x8000 : Nat) ≤ 0x9123 ∧ (0x9123 : Nat) ≤ 0xFFFF ∧
      Bus.memWrite ⟨fun _ => 0, ⟨[]⟩⟩ 0x9123 0x55 = none :=
  ⟨by decide, by decide,
    memWrite_rom_range_panics ⟨fun _ => 0, ⟨[]⟩⟩ 0x9123 0x55 (by decide) (by decide)⟩

/-! ### Claim C1 -/

/-- Claim C1 (the code aborts instead): loading the program
`LDA #$05; BRK` panics at its very first step for every CPU state: `load`
writes the byte `0xA9` to `PRG_START = 0x8000` through the bus, and
`Bus::mem_write` panics on the whole cartridge range, so `load` (and with
it `load_and_run`) never copies the program nor writes the reset vector. -/
theorem load_lda_brk_panics (c : CPU) :
    c.load [0xA9, 0x05, 0x00] = none := by
  simp [CPU.load, CPU.loadBytes, CPU.memWrite, Bus.memWrite, PRG_START]

/-! ### Claim C7 -/

set_option maxRecDepth 8192 in
/-- Every byte below 256 is a key of the opcode map (closed sweep). -/
theorem opcodes_cover_aux :
    ((List.range 256).all fun b => (OPCODES_MAP b).isSome) = true := by decide

/-- Claim C7: every byte value `b < 256` has an entry in the opcode table,
so the decode lookup in `run_with_callback` can never reach its fatal
`OpCode is not recognized` branch. -/
theorem opcodes_map_covers_all_bytes (b : Nat) (hb : b < 256) :
    (OPCODES_MAP b).isSome = true := by
  have h := opcodes_cover_aux
  rw [List.all_eq_true] at h
  exact h b (List.mem_range.mpr hb)

theorem opcodes_map_covers_all_bytes_witness :
    (0xB3 : Nat) < 256 ∧ (OPCODES_MAP 0xB3).isSome = true :=
  ⟨by decide, opcodes_map_covers_all_bytes 0xB3 (by decide)⟩

end NES

namespace NES

/-! ### Claim C2 -/

/-- A single 16KB bank of zeroed program ROM (the mirrored-bank shape the
Bus supports). -/
def zeroBankRom : Rom := ⟨List.replicate 0x4000 0⟩

/-- A bus with zeroed RAM over the 16KB zero bank. -/
def zeroBankBus : Bus := ⟨fun _ => 0, zeroBankRom⟩

/-- A CPU mid-execution: the state of `CPU::new` after one
`push_stack(0x00)`, whose stack pointer has moved from `0xFD` to `0xFC`. -/
def cpuAfterPush : CPU := { CPU.new zeroBankBus with stack_ptr := 0xFC }

/-- What `reset` produces on `cpuAfterPush`. -/
def cpuAfterPushReset : CPU :=
  { cpuAfterPush with
    accumulator := 0
    register_x := 0
    register_y := 0
    status := CPUFlags.fromBits 0b00100100
    program_counter := 0 }

/-- Reads from the mirrored upper half of the zero bank succeed with 0. -/
theorem zeroBankBus_memRead_rom (addr : Nat) (h1 : 0xC000 ≤ addr) (h2 : addr ≤ 0xFFFF) :
    zeroBankBus.memRead addr = some 0 := by
  unfold Bus.memRead
  rw [if_neg (by omega), if_neg (by omega), if_pos ⟨by omega, h2⟩]
  simp only [Bus.readPrgRom, zeroBankBus, zeroBankRom, List.length_replicate]
  rw [if_pos ⟨by simp, by omega⟩]
  exact get?_replicate_lt _ _ _ (by omega)

/-- The reset vector read on the zero bank yields address 0. -/
theorem zeroBankBus_read_vector : zeroBankBus.memReadU16 PRG_REF = some 0 := by
  have ha : zeroBankBus.memRead 0xFFFC = some 0 :=
    zeroBankBus_memRead_rom 0xFFFC (by omega) (by omega)
  have hb : zeroBankBus.memRead 0xFFFD = some 0 :=
    zeroBankBus_memRead_rom 0xFFFD (by omega) (by omega)
  unfold Bus.memReadU16 PRG_REF
  norm_num [ha, hb]

/-- Evaluating `reset` on the pushed-state CPU. -/
theorem cpuAfterPush_reset_eval :
    cpuAfterPush.reset = some cpuAfterPushReset := by
  unfold CPU.reset CPU.memReadU16
  rw [show cpuAfterPush.bus = zeroBankBus from rfl, zeroBankBus_read_vector]
  rfl

/-- Claim C2 counterexample: a CPU whose stack pointer moved to `0xFC`
before the reset still has stack pointer `0xFC` afterwards, not `0xFD`. -/
theorem reset_stack_ptr_cex :
    Option.map CPU.stack_ptr cpuAfterPush.reset = some 0xFC ∧ (0xFC : Nat) ≠ 0xFD := by
  refine ⟨?_, by decide⟩
  rw [cpuAfterPush_reset_eval]
  rfl

/-- Claim C2 (amended): `reset` clears the accumulator and both index
registers, restores the status byte `0b0010_0100`, and loads the program
counter from the little-endian word at `0xFFFC`, but it leaves the stack
pointer exactly as it was; the stack pointer is `0xFD` only because
`CPU::new` initializes it so. -/
theorem reset_spec (c c' : CPU) (h : c.reset = some c') :
    c'.stack_ptr = c.stack_ptr ∧ c'.accumulator = 0 ∧ c'.register_x = 0 ∧
      c'.register_y = 0 ∧ c'.status = CPUFlags.fromBits 0b00100100 ∧
      c.memReadU16 PRG_REF = some c'.program_counter := by
  unfold CPU.reset at h
  cases hr : c.memReadU16 PRG_REF with
  | none => rw [hr] at h; simp at h
  | some pc =>
      rw [hr] at h
      simp only [Option.bind_eq_bind, Option.some_bind, Option.pure_def,
        Option.some.injEq] at h
      subst h
      exact ⟨rfl, rfl, rfl, rfl, rfl, rfl⟩

theorem reset_spec_witness :
    cpuAfterPush.reset = some cpuAfterPushReset ∧
      (cpuAfterPushReset.stack_ptr = cpuAfterPush.stack_ptr ∧
        cpuAfterPushReset.accumulator = 0 ∧ cpuAfterPushReset.register_x = 0 ∧
        cpuAfterPushReset.register_y = 0 ∧
        cpuAfterPushReset.status = CPUFlags.fromBits 0b00100100 ∧
        cpuAfterPush.memReadU16 PRG_REF = some cpuAfterPushReset.program_counter) :=
  ⟨cpuAfterPush_reset_eval, reset_spec cpuAfterPush cpuAfterPushReset cpuAfterPush_reset_eval⟩

/-! ### Claim C3 -/

/-- The stack contents of the repo's own `test_rti`: status byte
`CARRY | NEG = 0x81` at `0x01FD`, return address `0x8003` split over
`0x01FE` (low) and `0x01FF` (high). -/
def rtiBus : Bus :=
  ⟨fun i =>
    if i = 0x1FD then 0x81 else if i = 0x1FE then 0x03 else if i = 0x1FF then 0x80 else 0,
   ⟨[]⟩⟩

/-- The CPU of `test_rti`: a fresh CPU with its stack pointer at `0xFC`. -/
def rtiCpu : CPU := { CPU.new rtiBus with stack_ptr := 0xFC }

/-- Claim C3 (the code forces the BREAK bits): on the repo's own `test_rti`
input — status byte `0x81` then return address `0x8003` on the stack —
`rti` restores `PC = 0x8003` by pulling low byte then high byte, but the
restored status is `0xA1`: the pulled byte with BRK2 forced set and BRK
forced clear, not the exact pulled byte `0x81` that the spec (and the
repo's `test_rti` assertion) demand. -/
theorem rti_forces_break_bits :
    Option.map (fun c => (c.status, c.program_counter)) rtiCpu.rti
        = some (CPUFlags.fromBits 0xA1, 0x8003) ∧
      CPUFlags.fromBits 0xA1 ≠ CPUFlags.fromBits 0x81 := by
  constructor
  · decide
  · decide

end NES

namespace NES

/-! ### Claim C4 -/

/-- Spec-side definition for the refinement claim: the fusion the spec
mandates for `DCP` — execute `DEC` at the resolved address, then `CMP` of
the accumulator against that same address. -/
def CPU.decThenCmpSpec (c : CPU) (addr : Nat) : Option CPU :=
  (c.decAt addr).bind fun c1 => c1.cmpAt addr c1.accumulator

/-- The memory for the DCP counterexample: operand `2` at address `0x10`. -/
def dcpBus : Bus := ⟨fun i => if i = 0x10 then 2 else 0, ⟨[]⟩⟩

/-- Incoming CARRY set, accumulator 0. -/
def dcpCpu : CPU := { CPU.new dcpBus with status := CPUFlags.fromBits 0x01 }

/-- A fresh CPU (accumulator 0, CARRY clear) over zeroed RAM and an empty
cartridge, used at a write-stubbed address. -/
def dcpStubCpu : CPU := CPU.new ⟨fun _ => 0, ⟨[]⟩⟩

/-- Claim C4 counterexample, at two resolved addresses.  In RAM (operand
`2` at `0x10`, CARRY set on entry, accumulator `0`): `dcp` leaves CARRY set
while the `DEC`-then-`CMP` fusion clears it.  At the write-stubbed PPU
address `0x2000` (CARRY clear, accumulator `0`): the fusion's `CMP`
re-reads the stubbed `0`, setting CARRY and ZERO, while `dcp`, comparing
against the decremented stale value `255`, leaves both clear. -/
theorem dcp_fusion_cex :
    Option.map (fun c => c.status.carry) (dcpCpu.dcpAt 0x10) = some true ∧
      Option.map (fun c => c.status.carry) (dcpCpu.decThenCmpSpec 0x10) = some false ∧
      Option.map (fun c => c.status.carry) (dcpStubCpu.dcpAt 0x2000) = some false ∧
      Option.map (fun c => c.status.carry) (dcpStubCpu.decThenCmpSpec 0x2000) = some true ∧
      Option.map (fun c => c.status.zero) (dcpStubCpu.dcpAt 0x2000) = some false ∧
      Option.map (fun c => c.status.zero) (dcpStubCpu.decThenCmpSpec 0x2000) = some true :=
  ⟨by decide, by decide, by decide, by decide, by decide, by decide⟩

/-- Reads from the write-stubbed regions (PPU registers, unmapped, beyond
`u16`) return 0. -/
theorem bus_memRead_stub (b : Bus) (addr : Nat) (h1 : 0x2000 ≤ addr)
    (h2 : ¬(0x8000 ≤ addr ∧ addr ≤ 0xFFFF)) : b.memRead addr = some 0 := by
  unfold Bus.memRead
  rw [if_neg (by omega)]
  by_cases h3 : addr ≤ 0x3FFF
  · rw [if_pos h3]
  · rw [if_neg h3, if_neg h2]

/-- Writes to the write-stubbed regions are ignored: the bus is returned
unchanged. -/
theorem bus_memWrite_stub (b : Bus) (addr data : Nat) (h1 : 0x2000 ≤ addr)
    (h2 : ¬(0x8000 ≤ addr ∧ addr ≤ 0xFFFF)) : b.memWrite addr data = some b := by
  unfold Bus.memWrite
  rw [if_neg (by omega)]
  by_cases h3 : addr ≤ 0x3FFF
  · rw [if_pos h3]
  · rw [if_neg h3, if_neg h2]

/-- Claim C4 (amended): how `dcp` relates to the `DEC`-then-`CMP` fusion at
every resolved address.  (1) In RAM they produce identical memory,
registers, and all flags except CARRY: `dcp`'s CARRY ends set iff the
accumulator is unsigned-`≥` the decremented operand or CARRY was already
set — `dcp` never clears CARRY where the fusion would — and the two
coincide exactly when the incoming CARRY is clear.  (2) On the cartridge
ROM range both abort at the write.  (3) At write-stubbed addresses (PPU
register range, unmapped ranges) they diverge further: the fusion's `CMP`
re-reads the stubbed `0`, so its CARRY always ends set and ZERO/NEGATIVE
derive from `accumulator - 0`, while `dcp` compares against the
decremented stale read `255`, so it only gains CARRY when the accumulator
is `≥ 255` and derives ZERO/NEGATIVE from `accumulator - 255`. -/
theorem dcp_vs_dec_then_cmp_fusion (c : CPU) (addr : Nat) :
    (addr ≤ 0x1FFF →
      (c.dcpAt addr).isSome = true ∧ (c.decThenCmpSpec addr).isSome = true ∧
      (c.dcpAt addr).map (fun d => d.bus) = (c.decThenCmpSpec addr).map (fun d => d.bus) ∧
      (c.dcpAt addr).map (fun d => d.accumulator)
        = (c.decThenCmpSpec addr).map (fun d => d.accumulator) ∧
      (c.dcpAt addr).map (fun d => d.register_x)
        = (c.decThenCmpSpec addr).map (fun d => d.register_x) ∧
      (c.dcpAt addr).map (fun d => d.register_y)
        = (c.decThenCmpSpec addr).map (fun d => d.register_y) ∧
      (c.dcpAt addr).map (fun d => d.stack_ptr)
        = (c.decThenCmpSpec addr).map (fun d => d.stack_ptr) ∧
      (c.dcpAt addr).map (fun d => d.program_counter)
        = (c.decThenCmpSpec addr).map (fun d => d.program_counter) ∧
      (c.dcpAt addr).map (fun d => d.status.zero)
        = (c.decThenCmpSpec addr).map (fun d => d.status.zero) ∧
      (c.dcpAt addr).map (fun d => d.status.neg)
        = (c.decThenCmpSpec addr).map (fun d => d.status.neg) ∧
      (c.dcpAt addr).map (fun d => d.status.int)
        = (c.decThenCmpSpec addr).map (fun d => d.status.int) ∧
      (c.dcpAt addr).map (fun d => d.status.dec)
        = (c.decThenCmpSpec addr).map (fun d => d.status.dec) ∧
      (c.dcpAt addr).map (fun d => d.status.brk)
        = (c.decThenCmpSpec addr).map (fun d => d.status.brk) ∧
      (c.dcpAt addr).map (fun d => d.status.brk2)
        = (c.decThenCmpSpec addr).map (fun d => d.status.brk2) ∧
      (c.dcpAt addr).map (fun d => d.status.over)
        = (c.decThenCmpSpec addr).map (fun d => d.status.over) ∧
      (c.dcpAt addr).map (fun d => d.status.carry)
        = (c.decThenCmpSpec addr).map (fun e => c.status.carry || e.status.carry) ∧
      (c.status.carry = false → c.dcpAt addr = c.decThenCmpSpec addr)) ∧
    (0x8000 ≤ addr → addr ≤ 0xFFFF →
      c.dcpAt addr = none ∧ c.decThenCmpSpec addr = none) ∧
    (0x2000 ≤ addr → ¬(0x8000 ≤ addr ∧ addr ≤ 0xFFFF) →
      c.dcpAt addr = some
        { c with
          status :=
            { c.status with
              carry := if 255 ≤ c.accumulator then true else c.status.carry
              zero := wsub8 c.accumulator 255 == 0
              neg := wsub8 c.accumulator 255 &&& 0b10000000 != 0 } } ∧
      c.decThenCmpSpec addr = some
        { c with
          status :=
            { c.status with
              carry := true
              zero := wsub8 c.accumulator 0 == 0
              neg := wsub8 c.accumulator 0 &&& 0b10000000 != 0 } }) := by
  refine ⟨?_, ?_, ?_⟩
  · intro haddr
    refine ⟨?_, ?_, ?_, ?_, ?_, ?_, ?_, ?_, ?_, ?_, ?_, ?_, ?_, ?_, ?_, ?_, ?_⟩ <;>
    · by_cases hc : wsub8 (c.bus.ram (addr &&& 0x7FF)) 1 ≤ c.accumulator <;>
        simp [CPU.dcpAt, CPU.decThenCmpSpec, CPU.decAt, CPU.cmpAt, CPU.writeAndSet,
          CPU.memRead, CPU.memWrite, Bus.memRead, Bus.memWrite, CPU.setZeroAndNegFlags,
          haddr, hc]
  · intro h1 h2
    have hread : c.memRead addr = c.bus.readPrgRom addr := by
      unfold CPU.memRead Bus.memRead
      rw [if_neg (by omega), if_neg (by omega), if_pos ⟨h1, h2⟩]
    have hwrite : ∀ d : Nat, c.bus.memWrite addr d = none := by
      intro d
      unfold Bus.memWrite
      rw [if_neg (by omega), if_neg (by omega), if_pos ⟨h1, h2⟩]
    cases hv : c.bus.readPrgRom addr with
    | none =>
        constructor
        · simp [CPU.dcpAt, hread, hv]
        · simp [CPU.decThenCmpSpec, CPU.decAt, hread, hv]
    | some v =>
        constructor
        · simp [CPU.dcpAt, CPU.memWrite, hread, hv, hwrite]
        · simp [CPU.decThenCmpSpec, CPU.decAt, CPU.writeAndSet, CPU.memWrite, hread, hv,
            hwrite]
  · intro h1 h2
    have hr : c.bus.memRead addr = some 0 := bus_memRead_stub c.bus addr h1 h2
    have hw : ∀ d : Nat, c.bus.memWrite addr d = some c.bus := fun d =>
      bus_memWrite_stub c.bus addr d h1 h2
    by_cases hc : 255 ≤ c.accumulator <;>
      constructor <;>
        simp [CPU.dcpAt, CPU.decThenCmpSpec, CPU.decAt, CPU.cmpAt, CPU.writeAndSet,
          CPU.memRead, CPU.memWrite, CPU.setZeroAndNegFlags, wsub8, hr, hw, hc]

theorem dcp_vs_dec_then_cmp_fusion_witness :
    ((0x10 : Nat) ≤ 0x1FFF ∧
      ((dcpCpu.dcpAt 0x10).isSome = true ∧ (dcpCpu.decThenCmpSpec 0x10).isSome = true ∧
      (dcpCpu.dcpAt 0x10).map (fun d => d.bus)
        = (dcpCpu.decThenCmpSpec 0x10).map (fun d => d.bus) ∧
      (dcpCpu.dcpAt 0x10).map (fun d => d.accumulator)
        = (dcpCpu.decThenCmpSpec 0x10).map (fun d => d.accumulator) ∧
      (dcpCpu.dcpAt 0x10).map (fun d => d.register_x)
        = (dcpCpu.decThenCmpSpec 0x10).map (fun d => d.register_x) ∧
      (dcpCpu.dcpAt 0x10).map (fun d => d.register_y)
        = (dcpCpu.decThenCmpSpec 0x10).map (fun d => d.register_y) ∧
      (dcpCpu.dcpAt 0x10).map (fun d => d.stack_ptr)
        = (dcpCpu.decThenCmpSpec 0x10).map (fun d => d.stack_ptr) ∧
      (dcpCpu.dcpAt 0x10).map (fun d => d.program_counter)
        = (dcpCpu.decThenCmpSpec 0x10).map (fun d => d.program_counter) ∧
      (dcpCpu.dcpAt 0x10).map (fun d => d.status.zero)
        = (dcpCpu.decThenCmpSpec 0x10).map (fun d => d.status.zero) ∧
      (dcpCpu.dcpAt 0x10).map (fun d => d.status.neg)
        = (dcpCpu.decThenCmpSpec 0x10).map (fun d => d.status.neg) ∧
      (dcpCpu.dcpAt 0x10).map (fun d => d.status.int)
        = (dcpCpu.decThenCmpSpec 0x10).map (fun d => d.status.int) ∧
      (dcpCpu.dcpAt 0x10).map (fun d => d.status.dec)
        = (dcpCpu.decThenCmpSpec 0x10).map (fun d => d.status.dec) ∧
      (dcpCpu.dcpAt 0x10).map (fun d => d.status.brk)
        = (dcpCpu.decThenCmpSpec 0x10).map (fun d => d.status.brk) ∧
      (dcpCpu.dcpAt 0x10).map (fun d => d.status.brk2)
        = (dcpCpu.decThenCmpSpec 0x10).map (fun d => d.status.brk2) ∧
      (dcpCpu.dcpAt 0x10).map (fun d => d.status.over)
        = (dcpCpu.decThenCmpSpec 0x10).map (fun d => d.status.over) ∧
      (dcpCpu.dcpAt 0x10).map (fun d => d.status.carry)
        = (dcpCpu.decThenCmpSpec 0x10).map (fun e => dcpCpu.status.carry || e.status.carry) ∧
      (dcpCpu.status.carry = false → dcpCpu.dcpAt 0x10 = dcpCpu.decThenCmpSpec 0x10))) ∧
    ((0x8000 : Nat) ≤ 0x9000 ∧ (0x9000 : Nat) ≤ 0xFFFF ∧
      (dcpCpu.dcpAt 0x9000 = none ∧ dcpCpu.decThenCmpSpec 0x9000 = none)) ∧
    ((0x2000 : Nat) ≤ 0x2000 ∧ ¬((0x8000 : Nat) ≤ 0x2000 ∧ (0x2000 : Nat) ≤ 0xFFFF) ∧
      (dcpStubCpu.dcpAt 0x2000 = some
        { dcpStubCpu with
          status :=
            { dcpStubCpu.status with
              carry := if 255 ≤ dcpStubCpu.accumulator then true else dcpStubCpu.status.carry
              zero := wsub8 dcpStubCpu.accumulator 255 == 0
              neg := wsub8 dcpStubCpu.accumulator 255 &&& 0b10000000 != 0 } } ∧
      dcpStubCpu.decThenCmpSpec 0x2000 = some
        { dcpStubCpu with
          status :=
            { dcpStubCpu.status with
              carry := true
              zero := wsub8 dcpStubCpu.accumulator 0 == 0
              neg := wsub8 dcpStubCpu.accumulator 0 &&& 0b10000000 != 0 } })) :=
  ⟨⟨by decide, (dcp_vs_dec_then_cmp_fusion dcpCpu 0x10).1 (by decide)⟩,
   ⟨by decide, by decide,
     (dcp_vs_dec_then_cmp_fusion dcpCpu 0x9000).2.1 (by decide) (by decide)⟩,
   ⟨by decide, by decide,
     (dcp_vs_dec_then_cmp_fusion dcpStubCpu 0x2000).2.2 (by decide) (by decide)⟩⟩
end NES

namespace NES

/-! ### Claim C5 -/

/-- Claim C5: when the indirect `JMP` pointer's low byte is `0xFF`, the new
program counter takes its low byte from `memory[pointer]` and its high byte
from `memory[pointer & 0xFF00]` — not from `pointer + 1` — reproducing the
6502 page-cross bug. -/
theorem jmp_indirect_page_bug (c : CPU) (p lo hi : Nat)
    (hp : c.memReadU16 c.program_counter = some p)
    (hff : p &&& 0x00FF = 0x00FF)
    (hlo : c.memRead p = some lo)
    (hhi : c.memRead (p &&& 0xFF00) = some hi) :
    c.jmpIndirect = some { c with program_counter := (hi <<< 8) ||| lo } := by
  unfold CPU.jmpIndirect CPU.memReadU16 CPU.memRead at *
  rw [hp]
  simp [hff, hlo, hhi]

/-- RAM for the C5 witness: pointer `0x10FF` stored little-endian at
`0x0002`, target low byte `0x40` at `0x10FF` (RAM mirror `0x00FF`), target
high byte `0x50` at `0x1000` (RAM mirror `0x0000`), echoing the spec's
`0x30FF`-style example inside addressable RAM. -/
def jmpBus : Bus :=
  ⟨fun i =>
    if i = 0x002 then 0xFF else if i = 0x003 then 0x10 else
    if i = 0x0FF then 0x40 else if i = 0x000 then 0x50 else 0,
   ⟨[]⟩⟩

/-- CPU about to execute the `0x6C` arm with its operand at `0x0002`. -/
def jmpCpu : CPU := { CPU.new jmpBus with program_counter := 0x0002 }

theorem jmp_indirect_page_bug_witness :
    jmpCpu.memReadU16 jmpCpu.program_counter = some 0x10FF ∧
      (0x10FF : Nat) &&& 0x00FF = 0x00FF ∧
      jmpCpu.memRead 0x10FF = some 0x40 ∧
      jmpCpu.memRead (0x10FF &&& 0xFF00) = some 0x50 ∧
      jmpCpu.jmpIndirect = some { jmpCpu with program_counter := (0x50 <<< 8) ||| 0x40 } ∧
      (((0x50 : Nat) <<< 8) ||| 0x40) = 0x5040 :=
  ⟨by decide, by decide, by decide, by decide,
    jmp_indirect_page_bug jmpCpu 0x10FF 0x40 0x50 (by decide) (by decide) (by decide)
      (by decide),
    by decide⟩

/-! ### Claim C6 -/

/-- Claim C6: the shared add path and SBC's one's complement.  For
byte-sized accumulator and operand, `add_to_acc` leaves
`(a + b + cin) % 256` in the accumulator, sets CARRY iff the 9-bit sum
exceeds `0xFF`, sets OVERFLOW iff `(b ^ r) & (a ^ r) & 0x80 ≠ 0` for the
8-bit result `r`, derives ZERO and NEGATIVE from `r`; and `sbc` with
operand `v` feeds the one's complement `255 - v` — not a two's-complement
negation — into that same add path. -/
theorem add_to_acc_and_sbc_spec (c : CPU) (b : Nat) (mode : AddressingMode) (addr v : Nat)
    (_ha : c.accumulator < 256) (_hb : b < 256)
    (hm : c.getOperandAddress mode = some addr)
    (hr : c.memRead addr = some v) (hv : v < 256) :
    (c.addToAcc b).accumulator
        = (c.accumulator + b + (if c.status.carry then 1 else 0)) % 256 ∧
      (c.addToAcc b).status.carry
        = decide (c.accumulator + b + (if c.status.carry then 1 else 0) > 0xFF) ∧
      (c.addToAcc b).status.over
        = ((b ^^^ ((c.accumulator + b + (if c.status.carry then 1 else 0)) % 256))
            &&& (c.accumulator ^^^ ((c.accumulator + b + (if c.status.carry then 1 else 0)) % 256))
            &&& 0x80 != 0) ∧
      (c.addToAcc b).status.zero
        = (((c.accumulator + b + (if c.status.carry then 1 else 0)) % 256) == 0) ∧
      (c.addToAcc b).status.neg
        = ((((c.accumulator + b + (if c.status.carry then 1 else 0)) % 256) &&& 0x80) != 0) ∧
      sbcOperand v = 255 - v ∧
      c.sbc mode = some (c.addToAcc (255 - v)) := by
  have hs : sbcOperand v = 255 - v := by
    unfold sbcOperand wsub8 wneg8
    omega
  refine ⟨rfl, rfl, rfl, rfl, rfl, hs, ?_⟩
  simp [CPU.sbc, hm, hr, hs]

/-- Memory for the C6 witness: operand `0x01` at the program counter. -/
def sbcBus : Bus := ⟨fun i => if i = 0x20 then 0x01 else 0, ⟨[]⟩⟩

/-- The spec's SBC scenario: accumulator `0x80`, CARRY set. -/
def sbcCpu : CPU :=
  { CPU.new sbcBus with
    accumulator := 0x80
    program_counter := 0x20
    status := CPUFlags.fromBits 0x01 }

theorem add_to_acc_and_sbc_spec_witness :
    sbcCpu.accumulator < 256 ∧ (0x80 : Nat) < 256 ∧
      sbcCpu.getOperandAddress .Immediate = some 0x20 ∧
      sbcCpu.memRead 0x20 = some 0x01 ∧ (0x01 : Nat) < 256 ∧
      ((sbcCpu.addToAcc 0x80).accumulator
          = (sbcCpu.accumulator + 0x80 + (if sbcCpu.status.carry then 1 else 0)) % 256 ∧
        (sbcCpu.addToAcc 0x80).status.carry
          = decide (sbcCpu.accumulator + 0x80 + (if sbcCpu.status.carry then 1 else 0) > 0xFF) ∧
        (sbcCpu.addToAcc 0x80).status.over
          = ((0x80 ^^^ ((sbcCpu.accumulator + 0x80 + (if sbcCpu.status.carry then 1 else 0)) % 256))
              &&& (sbcCpu.accumulator ^^^
                ((sbcCpu.accumulator + 0x80 + (if sbcCpu.status.carry then 1 else 0)) % 256))
              &&& 0x80 != 0) ∧
        (sbcCpu.addToAcc 0x80).status.zero
          = (((sbcCpu.accumulator + 0x80 + (if sbcCpu.status.carry then 1 else 0)) % 256) == 0) ∧
        (sbcCpu.addToAcc 0x80).status.neg
          = ((((sbcCpu.accumulator + 0x80 + (if sbcCpu.status.carry then 1 else 0)) % 256) &&& 0x80) != 0) ∧
        sbcOperand 0x01 = 255 - 0x01 ∧
        sbcCpu.sbc .Immediate = some (sbcCpu.addToAcc (255 - 0x01))) :=
  ⟨by decide, by decide, by decide, by decide, by decide,
    add_to_acc_and_sbc_spec sbcCpu 0x80 .Immediate 0x20 0x01 (by decide) (by decide)
      (by decide) (by decide) (by decide)⟩

/-! ### Claim C10 -/

/-- Claim C10: in `Indirect_X` and `Indirect_Y` the pointer-plus-one fetch
wraps inside page zero: when the (X-indexed, for `Indirect_X`) zero-page
pointer is `0xFF`, the high byte of the dereferenced address is read from
zero-page address `0x0000`, not `0x0100`. -/
theorem indirect_modes_zero_page_wrap (c : CPU) (curr1 curr2 base1 : Nat)
    (h1 : c.memRead curr1 = some base1)
    (hptr : wadd8 base1 c.register_x = 0xFF)
    (h2 : c.memRead curr2 = some 0xFF) :
    c.getNonImmediateAddr .Indirect_X curr1
        = some ((c.bus.ram 0 <<< 8) ||| c.bus.ram 0xFF) ∧
      c.getNonImmediateAddr .Indirect_Y curr2
        = some ((((c.bus.ram 0 <<< 8) ||| c.bus.ram 0xFF) + c.register_y) % 0x10000) := by
  have hmr : ∀ a : Nat, a ≤ 0x1FFF → c.memRead a = some (c.bus.ram (a &&& 0x7FF)) := by
    intro a hA
    unfold CPU.memRead Bus.memRead
    rw [if_pos hA]
  have hFF : c.memRead 0xFF = some (c.bus.ram 0xFF) := by
    rw [hmr 0xFF (by omega)]
    exact congrArg (fun t => some (c.bus.ram t)) (by decide)
  have h0 : c.memRead 0 = some (c.bus.ram 0) := by
    rw [hmr 0 (by omega)]
    exact congrArg (fun t => some (c.bus.ram t)) (by decide)
  have hw : wadd8 0xFF 1 = 0 := by unfold wadd8; norm_num
  constructor
  · unfold CPU.getNonImmediateAddr
    rw [h1]
    simp only [Option.bind_eq_bind, Option.some_bind, hptr, hw, hFF, h0, Option.pure_def]
  · unfold CPU.getNonImmediateAddr
    rw [h2]
    simp only [Option.bind_eq_bind, Option.some_bind, hw, hFF, h0, Option.pure_def]

/-- RAM for the C10 witness: pointer bytes `0xFE` at `5` (X-indexed to
`0xFF`) and `0xFF` at `6`; dereferenced address `0x1234` split over `0x00`
(high) and `0xFF` (low). -/
def wrapBus : Bus :=
  ⟨fun i =>
    if i = 5 then 0xFE else if i = 6 then 0xFF else
    if i = 0xFF then 0x34 else if i = 0 then 0x12 else 0,
   ⟨[]⟩⟩

/-- CPU for the C10 witness with `X = 1`, `Y = 0x10`. -/
def wrapCpu : CPU := { CPU.new wrapBus with register_x := 1, register_y := 0x10 }

theorem indirect_modes_zero_page_wrap_witness :
    wrapCpu.memRead 5 = some 0xFE ∧ wadd8 0xFE wrapCpu.register_x = 0xFF ∧
      wrapCpu.memRead 6 = some 0xFF ∧
      (wrapCpu.getNonImmediateAddr .Indirect_X 5
          = some ((wrapCpu.bus.ram 0 <<< 8) ||| wrapCpu.bus.ram 0xFF) ∧
        wrapCpu.getNonImmediateAddr .Indirect_Y 6
          = some ((((wrapCpu.bus.ram 0 <<< 8) ||| wrapCpu.bus.ram 0xFF)
              + wrapCpu.register_y) % 0x10000)) :=
  ⟨by decide, by decide, by decide,
    indirect_modes_zero_page_wrap wrapCpu 5 6 0xFE (by decide) (by decide) (by decide)⟩

end NES

namespace NES

/-! ### Claim C9 -/

/-- Evaluating `push_stack` at a byte-sized stack pointer: the write lands
at `0x100 + sp` inside the stack page (which is its own RAM mirror), and
the stack pointer wraps downward. -/
theorem pushStack_eval (c : CPU) (v : Nat) (hsp : c.stack_ptr < 256) :
    c.pushStack v = some
      { c with
        bus := { c.bus with
          ram := fun i => if i = 256 + c.stack_ptr then v else c.bus.ram i }
        stack_ptr := (c.stack_ptr + 255) % 256 } := by
  have h1 : STACK_END ||| c.stack_ptr = 256 + c.stack_ptr := stack_end_lor _ hsp
  have h2 : (256 + c.stack_ptr) &&& 0x7FF = 256 + c.stack_ptr := by
    rw [land_mask2047]
    omega
  have h3 : wsub8 c.stack_ptr 1 = (c.stack_ptr + 255) % 256 := by
    unfold wsub8
    omega
  have h4 : 256 + c.stack_ptr ≤ 0x1FFF := by omega
  simp [CPU.pushStack, CPU.memWrite, Bus.memWrite, CPU.setStackPtr, h1, h2, h3, h4]

/-- Evaluating `pull_stack`: increments the pointer with wraparound (which
is byte-sized regardless of the starting value), then reads inside the
stack page. -/
theorem pullStack_eval (c : CPU) :
    c.pullStack = some (c.bus.ram (256 + (c.stack_ptr + 1) % 256),
      { c with stack_ptr := (c.stack_ptr + 1) % 256 }) := by
  have h0 : wadd8 c.stack_ptr 1 = (c.stack_ptr + 1) % 256 := rfl
  have h1 : STACK_END ||| ((c.stack_ptr + 1) % 256) = 256 + (c.stack_ptr + 1) % 256 :=
    stack_end_lor _ (by omega)
  have h2 : (256 + (c.stack_ptr + 1) % 256) &&& 0x7FF = 256 + (c.stack_ptr + 1) % 256 := by
    rw [land_mask2047]
    omega
  have h4 : 256 + (c.stack_ptr + 1) % 256 ≤ 0x1FFF := by omega
  simp [CPU.pullStack, CPU.memRead, Bus.memRead, CPU.setStackPtr, h0, h1, h2, h4]


/-- Evaluating `pull_stack_u16`: two pulls, low byte then high byte,
recombined little-endian. -/
theorem pullStackU16_eval (c : CPU) :
    c.pullStackU16 = some
      ((c.bus.ram (256 + (c.stack_ptr + 1) % 256)) |||
        (c.bus.ram (256 + ((c.stack_ptr + 1) % 256 + 1) % 256) <<< 8),
      { c with stack_ptr := ((c.stack_ptr + 1) % 256 + 1) % 256 }) := by
  unfold CPU.pullStackU16
  rw [pullStack_eval c]
  simp only [Option.bind_eq_bind, Option.some_bind]
  rw [pullStack_eval _]
  simp only [Option.bind_eq_bind, Option.some_bind, Option.pure_def]

set_option maxRecDepth 8192 in
/-- Claim C9: pushing any 16-bit word and pulling it back returns the word
and restores the stack pointer, for every byte-sized starting stack
pointer; every access stays inside the `0x0100`–`0x01FF` stack page. -/
theorem stack_u16_roundtrip (c : CPU) (x : Nat) (hsp : c.stack_ptr < 256)
    (hx : x < 0x10000) :
    ((c.pushStackU16 x).bind CPU.pullStackU16).map (fun p => (p.1, p.2.stack_ptr))
      = some (x, c.stack_ptr) := by
  unfold CPU.pushStackU16
  rw [pushStack_eval c ((x >>> 8) % 256) hsp]
  simp only [Option.bind_eq_bind, Option.some_bind]
  rw [pushStack_eval _ (x % 256)
    (show (c.stack_ptr + 255) % 256 < 256 by omega)]
  simp only [Option.bind_eq_bind, Option.some_bind]
  rw [pullStackU16_eval _]
  simp only [Option.map_some', Option.some.injEq, Prod.mk.injEq]
  constructor
  · rw [show (((c.stack_ptr + 255) % 256 + 255) % 256 + 1) % 256
        = (c.stack_ptr + 255) % 256 by omega]
    rw [show ((c.stack_ptr + 255) % 256 + 1) % 256 = c.stack_ptr by omega]
    rw [if_pos rfl]
    rw [if_neg (by omega : ¬(256 + c.stack_ptr = 256 + (c.stack_ptr + 255) % 256))]
    rw [if_pos rfl]
    rw [show x >>> 8 = x / 256 by rw [Nat.shiftRight_eq_div_pow]]
    rw [show x / 256 % 256 = x / 256 by omega]
    rw [Nat.lor_comm, lor_hi_lo (x / 256) (x % 256) (by omega)]
    omega
  · omega

end NES

namespace NES

/-- A plain CPU (zeroed RAM, empty cartridge) for the stack witness; its
stack pointer is the reset value `0xFD`. -/
def stackCpu : CPU := CPU.new ⟨fun _ => 0, ⟨[]⟩⟩

theorem stack_u16_roundtrip_witness :
    stackCpu.stack_ptr < 256 ∧ (0xABCD : Nat) < 0x10000 ∧
      ((stackCpu.pushStackU16 0xABCD).bind CPU.pullStackU16).map
          (fun p => (p.1, p.2.stack_ptr))
        = some (0xABCD, stackCpu.stack_ptr) :=
  ⟨by decide, by decide, stack_u16_roundtrip stackCpu 0xABCD (by decide) (by decide)⟩

end NES
